import Mathlib

/-!
Shallow embedding of the karpenter horizontal-autoscaler reconciliation core
(`pkg/autoscaler/autoscaler.go`).

Replica counts (`int32` in Go) are modelled as `Int`; no arithmetic in this
subsystem can overflow 32 bits (the only operations are `min`/`max` and
comparisons on configured values). Time (`time.Time` / `LastScaleTime`) is
modelled as an `Int` number of seconds; `time.Now()` is threaded explicitly
as a `now` parameter. Fallible external collaborators (metric client, scale
getter/updater, REST mapper) are modelled as `Except String` valued fields
of an `Env` record.

Helpers defined elsewhere in the repository (the `v1alpha1` API package and
`pkg/utils/functional`): `ApplySelectPolicy`, `GetScalingRules`,
`WithinStabilizationWindow`, the condition manager's `MarkTrue`/`MarkFalse`,
and `MinInt32`/`MaxInt32`, are modelled from the spec, each marked so in its
doc comment.
-/

/-- Modelled from the spec: `pkg/utils/functional.MinInt32`, minimum of a
non-empty list of int32 (the clamp helper); `0` on the empty list. -/
def MinInt32 : List Int → Int
  | [] => 0
  | x :: xs => xs.foldl min x

/-- Modelled from the spec: `pkg/utils/functional.MaxInt32`, maximum of a
non-empty list of int32; `0` on the empty list. -/
def MaxInt32 : List Int → Int
  | [] => 0
  | x :: xs => xs.foldl max x

/-- A metric target type (`autoscaling/v2beta2`-style). The concrete
constructors are opaque to this subsystem. -/
inductive MetricTargetType where
  | Utilization
  | AverageValue
  | Value
deriving DecidableEq, Repr

/-- `metric.GetTarget()`: a target type and a quantity value (`Quantity.Value()`
returns an integer). -/
structure MetricTarget where
  type : MetricTargetType
  value : Int
deriving DecidableEq, Repr

/-- A configured metric spec from `AutoscalerSpec.Metrics`. -/
structure MetricSpec where
  name : String
  target : MetricTarget
deriving DecidableEq, Repr

/-- `algorithms.Metric`: the normalized per-tick metric observation assembled
by `getMetrics`. Observed and target values are float64 in the source. -/
structure Metric where
  metric : Float
  targetType : MetricTargetType
  targetValue : Float

/-- A rate policy (`Behavior` scaling-rule policy). Only iterated for logging
by `applyTransientLimits` (the TODO loop); its fields never influence the
result. -/
structure ScalingPolicy where
  type : String
  value : Int
  periodSeconds : Int
deriving DecidableEq, Repr

/-- `v1alpha1.ScalingRules`: an optional stabilization window (seconds) and a
list of rate policies. -/
structure ScalingRules where
  stabilizationWindowSeconds : Option Int
  policies : List ScalingPolicy
deriving DecidableEq, Repr

/-- The selection policy reducing per-metric recommendations. -/
inductive ScalingPolicySelect where
  | MaxPolicy
  | MinPolicy
  | Disabled
deriving DecidableEq, Repr

/-- `v1alpha1.Behavior`: selection policy plus direction-keyed scaling rules. -/
structure Behavior where
  selectPolicy : Option ScalingPolicySelect
  scaleUp : Option ScalingRules
  scaleDown : Option ScalingRules
deriving DecidableEq, Repr

/-- `v1alpha1.CrossVersionObjectReference`. -/
structure CrossVersionObjectReference where
  apiVersion : String
  kind : String
  name : String
deriving DecidableEq, Repr

/-- `v1alpha1.HorizontalAutoscalerSpec` restricted to the fields this
subsystem reads. -/
structure AutoscalerSpec where
  metrics : List MetricSpec
  minReplicas : Int
  maxReplicas : Int
  scaleTargetRef : CrossVersionObjectReference
  behavior : Behavior

/-- One status condition: status flag with reason and message (knative
condition shape restricted to the fields this subsystem writes). -/
structure Condition where
  status : Bool
  reason : String
  message : String
deriving DecidableEq, Repr

/-- `v1alpha1.HorizontalAutoscalerStatus`: the mutable status owned by the
reconciler. The two conditions this subsystem writes are kept as named
optional fields (`none` = condition never set). -/
structure AutoscalerStatus where
  currentReplicas : Option Int
  desiredReplicas : Option Int
  lastScaleTime : Option Int
  ableToScale : Option Condition
  scalingUnbounded : Option Condition
deriving DecidableEq, Repr

/-- Modelled from the spec: `StatusConditions().MarkTrue(AbleToScale)` —
sets the condition to True and clears reason/message. -/
def markTrueAbleToScale (s : AutoscalerStatus) : AutoscalerStatus :=
  { s with ableToScale := some { status := true, reason := "", message := "" } }

/-- Modelled from the spec: `StatusConditions().MarkFalse(AbleToScale, reason, msg)`. -/
def markFalseAbleToScale (s : AutoscalerStatus) (reason msg : String) : AutoscalerStatus :=
  { s with ableToScale := some { status := false, reason := reason, message := msg } }

/-- Modelled from the spec: `StatusConditions().MarkTrue(ScalingUnbounded)`. -/
def markTrueScalingUnbounded (s : AutoscalerStatus) : AutoscalerStatus :=
  { s with scalingUnbounded := some { status := true, reason := "", message := "" } }

/-- Modelled from the spec: `StatusConditions().MarkFalse(ScalingUnbounded, reason, msg)`. -/
def markFalseScalingUnbounded (s : AutoscalerStatus) (reason msg : String) : AutoscalerStatus :=
  { s with scalingUnbounded := some { status := false, reason := reason, message := msg } }

/-- `applyBoundedLimits` (autoscaler.go:155-170): clamp `desiredReplicas` into
`[Spec.MinReplicas, Spec.MaxReplicas]` via `MinInt32`/`MaxInt32` and mark the
`ScalingUnbounded` condition. Returns the bounded value and updated status. -/
def applyBoundedLimits (spec : AutoscalerSpec) (s : AutoscalerStatus)
    (desiredReplicas : Int) : Int × AutoscalerStatus :=
  let boundedReplicas :=
    MinInt32 [MaxInt32 [desiredReplicas, spec.minReplicas], spec.maxReplicas]
  if boundedReplicas ≠ desiredReplicas then
    (boundedReplicas,
      markFalseScalingUnbounded s ""
        ("recommendation " ++ toString desiredReplicas ++ " limited by bounds [" ++
          toString spec.minReplicas ++ ", " ++ toString spec.maxReplicas ++ "]"))
  else
    (boundedReplicas, markTrueScalingUnbounded s)

/-- Modelled from the spec: rules defaulted when no direction-specific rules
are configured — no stabilization window, no policies. -/
def defaultScalingRules : ScalingRules :=
  { stabilizationWindowSeconds := none, policies := [] }

/-- Modelled from the spec: `Behavior.GetScalingRules(replicas, recommendations)`
determines the scale direction implied by the recommendations vs the current
replicas (spec §4.4 step 1: direction is resolved before the window check, a
scale-up window must not suppress a scale-down) and returns the rules for that
direction, defaulted when unset. -/
def Behavior.GetScalingRules (b : Behavior) (replicas : Int)
    (recommendations : List Int) : ScalingRules :=
  if MaxInt32 recommendations > replicas then
    b.scaleUp.getD defaultScalingRules
  else
    b.scaleDown.getD defaultScalingRules

/-- Modelled from the spec: `ScalingRules.WithinStabilizationWindow(lastScaleTime)`
— true exactly when a stabilization window is configured, `LastScaleTime` is
set, and `now` is before `LastScaleTime + window` (spec §4.4 step 2: an unset
`LastScaleTime` is treated as window-elapsed / first-ever scale). `now` is
threaded explicitly. -/
def ScalingRules.WithinStabilizationWindow (rules : ScalingRules)
    (lastScaleTime : Option Int) (now : Int) : Bool :=
  match lastScaleTime, rules.stabilizationWindowSeconds with
  | some t, some w => now < t + w
  | _, _ => false

/-- Modelled from the spec: `Behavior.ApplySelectPolicy(current, recommendations)`
— `Max` (the default when the policy is unspecified) selects the largest
recommendation, `Min` the smallest, `Disabled` returns the current replicas
regardless of the recommendations. -/
def Behavior.ApplySelectPolicy (b : Behavior) (currentReplicas : Int)
    (recommendations : List Int) : Int :=
  match b.selectPolicy.getD ScalingPolicySelect.MaxPolicy with
  | ScalingPolicySelect.MaxPolicy => MaxInt32 recommendations
  | ScalingPolicySelect.MinPolicy => MinInt32 recommendations
  | ScalingPolicySelect.Disabled => currentReplicas

/-- `applyTransientLimits` (autoscaler.go:172-194). Within the stabilization
window: mark `AbleToScale` False with a message naming the earliest permitted
time (`LastScaleTime + StabilizationWindowSeconds`, both dereferenced through
`Option.get!` exactly where the Go dereferences the pointers) and return the
current replicas. Otherwise the policies loop only logs a TODO; the condition
is marked True and the raw recommendation is returned. -/
def applyTransientLimits (b : Behavior) (s : AutoscalerStatus) (now : Int)
    (replicas recommendation : Int) : Int × AutoscalerStatus :=
  let rules := b.GetScalingRules replicas [recommendation]
  if rules.WithinStabilizationWindow s.lastScaleTime now then
    (replicas,
      markFalseAbleToScale s ""
        ("within stabilization window, able to scale at " ++
          toString (s.lastScaleTime.get! + rules.stabilizationWindowSeconds.get!)))
  else
    (recommendation, markTrueAbleToScale s)

/-- `v1.Scale`: the transient scale-target resource — current spec replicas,
observed status replicas, and the self link used in the update error message. -/
structure Scale where
  specReplicas : Int
  statusReplicas : Int
  selfLink : String
deriving DecidableEq, Repr

/-- `schema.GroupResource` produced by `parseGroupResource`. -/
structure GroupResource where
  group : String
  resource : String
deriving DecidableEq, Repr

/-- The external collaborators of one reconciliation pass: the metric client
(`GetCurrentValue`), the per-metric algorithm strategy selected at
construction, the REST mapper (`parseGroupResource`'s parse+mapping), the
scales getter/updater, and the wall clock. -/
structure Env where
  getCurrentValue : MetricSpec → Except String Float
  algorithmGetDesiredReplicas : Metric → Int → Int
  parseGroupResourceResult : CrossVersionObjectReference → Except String GroupResource
  getScale : GroupResource → String → Except String Scale
  updateScale : GroupResource → Scale → Except String Unit
  now : Int

/-- The autoscaler: its spec and mutable status (`v1alpha1.HorizontalAutoscaler`). -/
structure Autoscaler where
  spec : AutoscalerSpec
  status : AutoscalerStatus

/-- The loop body of `getMetrics` (autoscaler.go:115-129): on the first failed
lookup return the wrapped error; otherwise append the normalized observation
(`TargetValue` is the float64 cast of the quantity value). -/
def getMetricsLoop (env : Env) : List MetricSpec → List Metric →
    Except String (List Metric)
  | [], metrics => Except.ok metrics
  | m :: rest, metrics =>
    match env.getCurrentValue m with
    | Except.error e => Except.error ("failed retrieving metric, " ++ e)
    | Except.ok observed =>
      getMetricsLoop env rest
        (metrics ++ [{ metric := observed, targetType := m.target.type,
                       targetValue := Float.ofInt m.target.value }])

/-- `getMetrics` (autoscaler.go:115-129). -/
def getMetrics (env : Env) (a : Autoscaler) : Except String (List Metric) :=
  getMetricsLoop env a.spec.metrics []

/-- `getScaleTarget` (autoscaler.go:196-208): resolve the group resource, then
fetch the scale subresource; each failure is wrapped with its stage. -/
def getScaleTarget (env : Env) (a : Autoscaler) : Except String Scale :=
  match env.parseGroupResourceResult a.spec.scaleTargetRef with
  | Except.error e =>
    Except.error ("parsing group resource for " ++ a.spec.scaleTargetRef.name ++ ", " ++ e)
  | Except.ok groupResource =>
    match env.getScale groupResource a.spec.scaleTargetRef.name with
    | Except.error e =>
      Except.error ("getting scale target for " ++ a.spec.scaleTargetRef.name ++ ", " ++ e)
    | Except.ok scaleTarget => Except.ok scaleTarget

/-- `updateScaleTarget` (autoscaler.go:210-221): resolve the group resource,
then persist the mutated scale; failures are wrapped. -/
def updateScaleTarget (env : Env) (a : Autoscaler) (scaleTarget : Scale) :
    Except String Unit :=
  match env.parseGroupResourceResult a.spec.scaleTargetRef with
  | Except.error e =>
    Except.error ("parsing group resource for " ++ a.spec.scaleTargetRef.name ++ ", " ++ e)
  | Except.ok groupResource =>
    match env.updateScale groupResource scaleTarget with
    | Except.error e => Except.error ("updating " ++ scaleTarget.selfLink ++ ", " ++ e)
    | Except.ok _ => Except.ok ()

/-- `getDesiredReplicas` (autoscaler.go:144-153): per-metric recommendations
through the algorithm strategy, selection policy, transient limits, then
bounded limits; returns the final value and the status carrying the two
conditions. -/
def getDesiredReplicas (env : Env) (spec : AutoscalerSpec) (s : AutoscalerStatus)
    (metrics : List Metric) (scaleTarget : Scale) : Int × AutoscalerStatus :=
  let recommendations :=
    metrics.map (fun m => env.algorithmGetDesiredReplicas m scaleTarget.statusReplicas)
  let recommendation :=
    spec.behavior.ApplySelectPolicy scaleTarget.specReplicas recommendations
  let limited := applyTransientLimits spec.behavior s env.now
    scaleTarget.specReplicas recommendation
  applyBoundedLimits spec limited.2 limited.1

deriving instance DecidableEq for Except

/-- The observable outcome of one `Reconcile` pass: the resulting status, the
returned error (if any), whether the gateway update was called, and the scale
argument passed to it. -/
structure ReconcileOutcome where
  status : AutoscalerStatus
  result : Except String Unit
  updateCalled : Bool
  updateArg : Option Scale
deriving DecidableEq, Repr

/-- `Reconcile` (autoscaler.go:81-113): fetch metrics, fetch the scale target,
refresh `CurrentReplicas`, compute the desired replicas, return early when it
equals the target's spec replicas, otherwise write it into the local target and
persist; on update success set `DesiredReplicas` and `LastScaleTime := now`. -/
def Reconcile (env : Env) (a : Autoscaler) : ReconcileOutcome :=
  match getMetrics env a with
  | Except.error e =>
    { status := a.status, result := Except.error e,
      updateCalled := false, updateArg := none }
  | Except.ok metrics =>
    match getScaleTarget env a with
    | Except.error e =>
      { status := a.status, result := Except.error e,
        updateCalled := false, updateArg := none }
    | Except.ok scaleTarget =>
      let s1 := { a.status with currentReplicas := some scaleTarget.statusReplicas }
      let desired := getDesiredReplicas env a.spec s1 metrics scaleTarget
      if desired.1 = scaleTarget.specReplicas then
        { status := desired.2, result := Except.ok (),
          updateCalled := false, updateArg := none }
      else
        let scaleTarget2 := { scaleTarget with specReplicas := desired.1 }
        match updateScaleTarget env a scaleTarget2 with
        | Except.error e =>
          { status := desired.2, result := Except.error e,
            updateCalled := true, updateArg := some scaleTarget2 }
        | Except.ok _ =>
          let s2 :=
            { desired.2 with
              desiredReplicas := some desired.1
              lastScaleTime := some env.now }
          { status := s2, result := Except.ok (),
            updateCalled := true, updateArg := some scaleTarget2 }

/-- Abbreviation for the recommendation `Reconcile` computes in step 3: the
desired replicas and condition-carrying status, evaluated over the status
whose `CurrentReplicas` was just refreshed from the fetched target. -/
def reconcileDesired (env : Env) (a : Autoscaler) (metrics : List Metric)
    (t : Scale) : Int × AutoscalerStatus :=
  getDesiredReplicas env a.spec
    { a.status with currentReplicas := some t.statusReplicas } metrics t

/-! ## Concrete fixtures used by witnesses and counterexamples -/

/-- A concrete scale-target reference. -/
def refA : CrossVersionObjectReference :=
  { apiVersion := "apps/v1", kind := "Deployment", name := "web" }

/-- A concrete metric spec. -/
def msA : MetricSpec :=
  { name := "cpu", target := { type := MetricTargetType.Utilization, value := 50 } }

/-- A behavior with no selection policy and no scaling rules configured. -/
def behaviorNone : Behavior :=
  { selectPolicy := none, scaleUp := none, scaleDown := none }

/-- A concrete autoscaler spec: one metric, bounds `[1, 10]`, no behavior
rules. -/
def specA : AutoscalerSpec :=
  { metrics := [msA], minReplicas := 1, maxReplicas := 10,
    scaleTargetRef := refA, behavior := behaviorNone }

/-- The empty status: nothing observed, nothing decided, no conditions set. -/
def statusEmpty : AutoscalerStatus :=
  { currentReplicas := none, desiredReplicas := none, lastScaleTime := none,
    ableToScale := none, scalingUnbounded := none }

/-- A concrete scale target at 5 replicas. -/
def scaleA : Scale :=
  { specReplicas := 5, statusReplicas := 5, selfLink := "/apis/apps/v1/web" }

/-- An environment in which every external call succeeds: the metric client
reports 80, the algorithm recommends 8 replicas, the mapper resolves, the
getter returns `scaleA`, updates succeed, and the clock reads 1000. -/
def envOk : Env :=
  { getCurrentValue := fun _ => Except.ok 80.0,
    algorithmGetDesiredReplicas := fun _ _ => 8,
    parseGroupResourceResult := fun _ =>
      Except.ok { group := "apps", resource := "deployments" },
    getScale := fun _ _ => Except.ok scaleA,
    updateScale := fun _ _ => Except.ok (),
    now := 1000 }

/-- Scaling rules with a 60-second stabilization window and no rate policies. -/
def rulesW60 : ScalingRules :=
  { stabilizationWindowSeconds := some 60, policies := [] }

/-- A behavior with a 60-second stabilization window in both directions. -/
def behaviorUp : Behavior :=
  { selectPolicy := none, scaleUp := some rulesW60, scaleDown := some rulesW60 }

/-- A status recording a last scale at time 100. -/
def statusScaled : AutoscalerStatus :=
  { statusEmpty with lastScaleTime := some 100 }

/-- The metric list `getMetrics` assembles in `envOk`-style environments for
`specA`'s single metric. -/
def metricsA : List Metric :=
  [{ metric := 80.0, targetType := MetricTargetType.Utilization,
     targetValue := Float.ofInt 50 }]

/-- An autoscaler over `specA` with an empty status. -/
def autoA : Autoscaler := { spec := specA, status := statusEmpty }

/-- `specA` with the 60-second-window behavior. -/
def specB : AutoscalerSpec := { specA with behavior := behaviorUp }

/-- An autoscaler over `specB` whose status records a last scale at 100. -/
def autoB : Autoscaler := { spec := specB, status := statusScaled }

/-- `envOk` observed at time 110 (inside `autoB`'s stabilization window). -/
def envStab : Env := { envOk with now := 110 }

/-- `envOk` with a failing metric client. -/
def envMetricFail : Env :=
  { envOk with getCurrentValue := fun _ => Except.error "metric backend down" }

/-- `envOk` with a failing scale updater. -/
def envUpdateFail : Env :=
  { envOk with updateScale := fun _ _ => Except.error "conflict" }

/-- A rate policy allowing a change of at most 1 pod per 60 seconds. -/
def polPods1 : ScalingPolicy :=
  { type := "Pods", value := 1, periodSeconds := 60 }

/-- A behavior with no stabilization window but one configured rate policy in
each direction. -/
def behaviorPol : Behavior :=
  { selectPolicy := none,
    scaleUp := some { stabilizationWindowSeconds := none, policies := [polPods1] },
    scaleDown := some { stabilizationWindowSeconds := none, policies := [polPods1] } }

/-! ## Helper lemmas -/

theorem MinInt32_pair (a b : Int) : MinInt32 [a, b] = min a b := by
  simp [MinInt32]

theorem MaxInt32_pair (a b : Int) : MaxInt32 [a, b] = max a b := by
  simp [MaxInt32]

theorem applyBoundedLimits_fst (spec : AutoscalerSpec) (s : AutoscalerStatus)
    (r : Int) :
    (applyBoundedLimits spec s r).1 =
      min (max r spec.minReplicas) spec.maxReplicas := by
  simp only [applyBoundedLimits, MinInt32_pair, MaxInt32_pair]
  split <;> rfl

theorem applyBoundedLimits_snd_eq (spec : AutoscalerSpec) (s : AutoscalerStatus)
    (r : Int) (h : min (max r spec.minReplicas) spec.maxReplicas = r) :
    (applyBoundedLimits spec s r).2 = markTrueScalingUnbounded s := by
  simp only [applyBoundedLimits, MinInt32_pair, MaxInt32_pair]
  split
  · next hne => exact absurd h hne
  · rfl

theorem applyBoundedLimits_snd_ne (spec : AutoscalerSpec) (s : AutoscalerStatus)
    (r : Int) (h : min (max r spec.minReplicas) spec.maxReplicas ≠ r) :
    (applyBoundedLimits spec s r).2 =
      markFalseScalingUnbounded s ""
        ("recommendation " ++ toString r ++ " limited by bounds [" ++
          toString spec.minReplicas ++ ", " ++ toString spec.maxReplicas ++ "]") := by
  simp only [applyBoundedLimits, MinInt32_pair, MaxInt32_pair]
  split
  · rfl
  · next hne => exact absurd hne (not_not_intro h)

theorem applyBoundedLimits_frame (spec : AutoscalerSpec) (s : AutoscalerStatus)
    (r : Int) :
    (applyBoundedLimits spec s r).2.ableToScale = s.ableToScale ∧
    (applyBoundedLimits spec s r).2.currentReplicas = s.currentReplicas ∧
    (applyBoundedLimits spec s r).2.desiredReplicas = s.desiredReplicas ∧
    (applyBoundedLimits spec s r).2.lastScaleTime = s.lastScaleTime := by
  simp only [applyBoundedLimits]
  split <;> exact ⟨rfl, rfl, rfl, rfl⟩

theorem applyTransientLimits_frame (b : Behavior) (s : AutoscalerStatus)
    (now replicas recommendation : Int) :
    (applyTransientLimits b s now replicas recommendation).2.scalingUnbounded =
      s.scalingUnbounded ∧
    (applyTransientLimits b s now replicas recommendation).2.currentReplicas =
      s.currentReplicas ∧
    (applyTransientLimits b s now replicas recommendation).2.desiredReplicas =
      s.desiredReplicas ∧
    (applyTransientLimits b s now replicas recommendation).2.lastScaleTime =
      s.lastScaleTime := by
  simp only [applyTransientLimits]
  split <;> exact ⟨rfl, rfl, rfl, rfl⟩

theorem applyTransientLimits_sets_ableToScale (b : Behavior)
    (s : AutoscalerStatus) (now replicas recommendation : Int) :
    ∃ c, (applyTransientLimits b s now replicas recommendation).2.ableToScale =
      some c := by
  simp only [applyTransientLimits]
  split <;> exact ⟨_, rfl⟩

theorem applyBoundedLimits_sets_scalingUnbounded (spec : AutoscalerSpec)
    (s : AutoscalerStatus) (r : Int) :
    ∃ c, (applyBoundedLimits spec s r).2.scalingUnbounded = some c := by
  simp only [applyBoundedLimits]
  split <;> exact ⟨_, rfl⟩

theorem getDesiredReplicas_eq (env : Env) (spec : AutoscalerSpec)
    (s : AutoscalerStatus) (metrics : List Metric) (t : Scale) :
    getDesiredReplicas env spec s metrics t =
      applyBoundedLimits spec
        (applyTransientLimits spec.behavior s env.now t.specReplicas
          (spec.behavior.ApplySelectPolicy t.specReplicas
            (metrics.map
              (fun m => env.algorithmGetDesiredReplicas m t.statusReplicas)))).2
        (applyTransientLimits spec.behavior s env.now t.specReplicas
          (spec.behavior.ApplySelectPolicy t.specReplicas
            (metrics.map
              (fun m => env.algorithmGetDesiredReplicas m t.statusReplicas)))).1 := rfl

theorem getDesiredReplicas_frame (env : Env) (spec : AutoscalerSpec)
    (s : AutoscalerStatus) (metrics : List Metric) (t : Scale) :
    (getDesiredReplicas env spec s metrics t).2.currentReplicas =
      s.currentReplicas ∧
    (getDesiredReplicas env spec s metrics t).2.desiredReplicas =
      s.desiredReplicas ∧
    (getDesiredReplicas env spec s metrics t).2.lastScaleTime =
      s.lastScaleTime := by
  rw [getDesiredReplicas_eq]
  obtain ⟨-, hb2, hb3, hb4⟩ := applyBoundedLimits_frame spec _ _
  obtain ⟨-, ht2, ht3, ht4⟩ := applyTransientLimits_frame spec.behavior s env.now
    t.specReplicas (spec.behavior.ApplySelectPolicy t.specReplicas
      (metrics.map (fun m => env.algorithmGetDesiredReplicas m t.statusReplicas)))
  exact ⟨hb2.trans ht2, hb3.trans ht3, hb4.trans ht4⟩

theorem getDesiredReplicas_sets_conditions (env : Env) (spec : AutoscalerSpec)
    (s : AutoscalerStatus) (metrics : List Metric) (t : Scale) :
    (∃ c, (getDesiredReplicas env spec s metrics t).2.ableToScale = some c) ∧
    (∃ c, (getDesiredReplicas env spec s metrics t).2.scalingUnbounded =
      some c) := by
  rw [getDesiredReplicas_eq]
  constructor
  · obtain ⟨ha, -, -, -⟩ := applyBoundedLimits_frame spec _ _
    rw [ha]
    exact applyTransientLimits_sets_ableToScale spec.behavior s env.now
      t.specReplicas (spec.behavior.ApplySelectPolicy t.specReplicas
        (metrics.map (fun m => env.algorithmGetDesiredReplicas m t.statusReplicas)))
  · exact applyBoundedLimits_sets_scalingUnbounded spec _ _

theorem foldl_max_init_le (xs : List Int) (x : Int) : x ≤ xs.foldl max x := by
  induction xs generalizing x with
  | nil => exact le_refl x
  | cons a xs ih => exact le_trans (le_max_left x a) (ih (max x a))

theorem foldl_max_mem_le (xs : List Int) (x y : Int) (h : y ∈ xs) :
    y ≤ xs.foldl max x := by
  induction xs generalizing x with
  | nil => cases h
  | cons a xs ih =>
    rcases List.mem_cons.mp h with rfl | hy
    · exact le_trans (le_max_right x y) (foldl_max_init_le xs (max x y))
    · exact ih (max x a) hy

theorem foldl_max_mem (xs : List Int) (x : Int) :
    xs.foldl max x = x ∨ xs.foldl max x ∈ xs := by
  induction xs generalizing x with
  | nil => exact Or.inl rfl
  | cons a xs ih =>
    rcases ih (max x a) with h | h
    · rcases max_choice x a with hc | hc
      · exact Or.inl (by rw [List.foldl_cons, h, hc])
      · exact Or.inr (by rw [List.foldl_cons, h, hc]; exact List.mem_cons_self a xs)
    · exact Or.inr (List.mem_cons_of_mem a h)

theorem foldl_min_init_le (xs : List Int) (x : Int) : xs.foldl min x ≤ x := by
  induction xs generalizing x with
  | nil => exact le_refl x
  | cons a xs ih => exact le_trans (ih (min x a)) (min_le_left x a)

theorem foldl_min_mem_le (xs : List Int) (x y : Int) (h : y ∈ xs) :
    xs.foldl min x ≤ y := by
  induction xs generalizing x with
  | nil => cases h
  | cons a xs ih =>
    rcases List.mem_cons.mp h with rfl | hy
    · exact le_trans (foldl_min_init_le xs (min x y)) (min_le_right x y)
    · exact ih (min x a) hy

theorem foldl_min_mem (xs : List Int) (x : Int) :
    xs.foldl min x = x ∨ xs.foldl min x ∈ xs := by
  induction xs generalizing x with
  | nil => exact Or.inl rfl
  | cons a xs ih =>
    rcases ih (min x a) with h | h
    · rcases min_choice x a with hc | hc
      · exact Or.inl (by rw [List.foldl_cons, h, hc])
      · exact Or.inr (by rw [List.foldl_cons, h, hc]; exact List.mem_cons_self a xs)
    · exact Or.inr (List.mem_cons_of_mem a h)

theorem MaxInt32_spec (rs : List Int) (h : rs ≠ []) :
    MaxInt32 rs ∈ rs ∧ ∀ y ∈ rs, y ≤ MaxInt32 rs := by
  match rs with
  | [] => exact absurd rfl h
  | x :: xs =>
    constructor
    · rcases foldl_max_mem xs x with hm | hm
      · rw [MaxInt32, hm]; exact List.mem_cons_self x xs
      · rw [MaxInt32]; exact List.mem_cons_of_mem x hm
    · intro y hy
      rcases List.mem_cons.mp hy with rfl | hy
      · rw [MaxInt32]; exact foldl_max_init_le xs y
      · rw [MaxInt32]; exact foldl_max_mem_le xs x y hy

theorem MinInt32_spec (rs : List Int) (h : rs ≠ []) :
    MinInt32 rs ∈ rs ∧ ∀ y ∈ rs, MinInt32 rs ≤ y := by
  match rs with
  | [] => exact absurd rfl h
  | x :: xs =>
    constructor
    · rcases foldl_min_mem xs x with hm | hm
      · rw [MinInt32, hm]; exact List.mem_cons_self x xs
      · rw [MinInt32]; exact List.mem_cons_of_mem x hm
    · intro y hy
      rcases List.mem_cons.mp hy with rfl | hy
      · rw [MinInt32]; exact foldl_min_init_le xs y
      · rw [MinInt32]; exact foldl_min_mem_le xs x y hy

theorem getMetricsLoop_error (env : Env) (specs : List MetricSpec)
    (acc : List Metric) (m : MetricSpec) (e : String)
    (hm : m ∈ specs) (he : env.getCurrentValue m = Except.error e) :
    ∃ e2, getMetricsLoop env specs acc = Except.error e2 := by
  induction specs generalizing acc with
  | nil => cases hm
  | cons m0 rest ih =>
    simp only [getMetricsLoop]
    rcases hc : env.getCurrentValue m0 with e0 | v0
    · exact ⟨_, rfl⟩
    · rcases List.mem_cons.mp hm with rfl | hm2
      · rw [hc] at he
        exact absurd he (by simp)
      · exact ih _ hm2

theorem Reconcile_metric_error_eq (env : Env) (a : Autoscaler) (e : String)
    (hm : getMetrics env a = Except.error e) :
    Reconcile env a =
      { status := a.status, result := Except.error e,
        updateCalled := false, updateArg := none } := by
  simp only [Reconcile, hm]

theorem Reconcile_target_error_eq (env : Env) (a : Autoscaler)
    (metrics : List Metric) (e : String)
    (hm : getMetrics env a = Except.ok metrics)
    (ht : getScaleTarget env a = Except.error e) :
    Reconcile env a =
      { status := a.status, result := Except.error e,
        updateCalled := false, updateArg := none } := by
  simp only [Reconcile, hm, ht]

theorem Reconcile_nochange_eq (env : Env) (a : Autoscaler)
    (metrics : List Metric) (t : Scale)
    (hm : getMetrics env a = Except.ok metrics)
    (ht : getScaleTarget env a = Except.ok t)
    (hd : (reconcileDesired env a metrics t).1 = t.specReplicas) :
    Reconcile env a =
      { status := (reconcileDesired env a metrics t).2, result := Except.ok (),
        updateCalled := false, updateArg := none } := by
  simp only [reconcileDesired] at hd ⊢
  simp only [Reconcile, hm, ht]
  rw [if_pos hd]

theorem Reconcile_update_error_eq (env : Env) (a : Autoscaler)
    (metrics : List Metric) (t : Scale) (e : String)
    (hm : getMetrics env a = Except.ok metrics)
    (ht : getScaleTarget env a = Except.ok t)
    (hd : (reconcileDesired env a metrics t).1 ≠ t.specReplicas)
    (hu : updateScaleTarget env a
      { t with specReplicas := (reconcileDesired env a metrics t).1 } =
        Except.error e) :
    Reconcile env a =
      { status := (reconcileDesired env a metrics t).2,
        result := Except.error e, updateCalled := true,
        updateArg :=
          some { t with specReplicas := (reconcileDesired env a metrics t).1 } } := by
  simp only [reconcileDesired] at hd hu ⊢
  simp only [Reconcile, hm, ht]
  rw [if_neg hd, hu]

theorem Reconcile_update_ok_eq (env : Env) (a : Autoscaler)
    (metrics : List Metric) (t : Scale)
    (hm : getMetrics env a = Except.ok metrics)
    (ht : getScaleTarget env a = Except.ok t)
    (hd : (reconcileDesired env a metrics t).1 ≠ t.specReplicas)
    (hu : updateScaleTarget env a
      { t with specReplicas := (reconcileDesired env a metrics t).1 } =
        Except.ok ()) :
    Reconcile env a =
      { status :=
          { (reconcileDesired env a metrics t).2 with
            desiredReplicas := some (reconcileDesired env a metrics t).1
            lastScaleTime := some env.now },
        result := Except.ok (), updateCalled := true,
        updateArg :=
          some { t with specReplicas := (reconcileDesired env a metrics t).1 } } := by
  simp only [reconcileDesired] at hd hu ⊢
  simp only [Reconcile, hm, ht]
  rw [if_neg hd, hu]

/-! ## Claim theorems -/

/-- C1: for every recommendation `r` and bounds `MinReplicas = lo`,
`MaxReplicas = hi` with `lo ≤ hi`, `applyBoundedLimits` returns a value in
`[lo, hi]`; the `ScalingUnbounded` condition is marked True iff the returned
value equals `r`, and otherwise it is marked False with a message citing `r`
and the `[lo, hi]` window; hence the final desired replica count produced by
`getDesiredReplicas` (the value a successful reconciliation pass acts on) lies
in `[MinReplicas, MaxReplicas]`. -/
theorem applyBoundedLimits_clamps (spec : AutoscalerSpec) (s : AutoscalerStatus)
    (r : Int) (h : spec.minReplicas ≤ spec.maxReplicas) :
    spec.minReplicas ≤ (applyBoundedLimits spec s r).1 ∧
    (applyBoundedLimits spec s r).1 ≤ spec.maxReplicas ∧
    ((applyBoundedLimits spec s r).2.scalingUnbounded =
        some { status := true, reason := "", message := "" } ↔
      (applyBoundedLimits spec s r).1 = r) ∧
    ((applyBoundedLimits spec s r).1 ≠ r →
      (applyBoundedLimits spec s r).2.scalingUnbounded =
        some { status := false, reason := "",
               message := "recommendation " ++ toString r ++
                 " limited by bounds [" ++ toString spec.minReplicas ++ ", " ++
                 toString spec.maxReplicas ++ "]" }) ∧
    (∀ (env : Env) (s0 : AutoscalerStatus) (metrics : List Metric) (t : Scale),
      spec.minReplicas ≤ (getDesiredReplicas env spec s0 metrics t).1 ∧
      (getDesiredReplicas env spec s0 metrics t).1 ≤ spec.maxReplicas) := by
  have hfst := applyBoundedLimits_fst spec s r
  refine ⟨?_, ?_, ?_, ?_, ?_⟩
  · rw [hfst]; exact le_min (le_max_right r spec.minReplicas) h
  · rw [hfst]; exact min_le_right _ _
  · by_cases hc : min (max r spec.minReplicas) spec.maxReplicas = r
    · rw [applyBoundedLimits_snd_eq spec s r hc, hfst, hc]
      simp [markTrueScalingUnbounded]
    · rw [applyBoundedLimits_snd_ne spec s r hc, hfst]
      simp only [markFalseScalingUnbounded]
      constructor
      · intro hfalse
        exact absurd (Option.some_injective _ hfalse) (by simp)
      · intro heq; exact absurd heq hc
  · intro hne
    rw [hfst] at hne
    rw [applyBoundedLimits_snd_ne spec s r hne]
    rfl
  · intro env s0 metrics t
    rw [getDesiredReplicas_eq, applyBoundedLimits_fst]
    exact ⟨le_min (le_max_right _ _) h, min_le_right _ _⟩

/-- C1 witness: concrete instantiation at bounds `[1, 10]` and
recommendation `15`. -/
theorem applyBoundedLimits_clamps_witness :
    specA.minReplicas ≤ specA.maxReplicas ∧
    (specA.minReplicas ≤ (applyBoundedLimits specA statusEmpty 15).1 ∧
     (applyBoundedLimits specA statusEmpty 15).1 ≤ specA.maxReplicas ∧
     ((applyBoundedLimits specA statusEmpty 15).2.scalingUnbounded =
         some { status := true, reason := "", message := "" } ↔
       (applyBoundedLimits specA statusEmpty 15).1 = 15) ∧
     ((applyBoundedLimits specA statusEmpty 15).1 ≠ 15 →
       (applyBoundedLimits specA statusEmpty 15).2.scalingUnbounded =
         some { status := false, reason := "",
                message := "recommendation " ++ toString (15 : Int) ++
                  " limited by bounds [" ++ toString specA.minReplicas ++ ", " ++
                  toString specA.maxReplicas ++ "]" }) ∧
     (∀ (env : Env) (s0 : AutoscalerStatus) (metrics : List Metric) (t : Scale),
       specA.minReplicas ≤ (getDesiredReplicas env specA s0 metrics t).1 ∧
       (getDesiredReplicas env specA s0 metrics t).1 ≤ specA.maxReplicas)) :=
  ⟨by decide, applyBoundedLimits_clamps specA statusEmpty 15 (by decide)⟩

/-- C2: when the current time is within the applicable stabilization window
since `LastScaleTime`, `applyTransientLimits` returns the current replica
count unchanged and marks `AbleToScale` False with a message naming the
earliest permitted time (`LastScaleTime + window`); when the window has
elapsed and no rate policies are configured, it returns the recommendation
unmodified and marks `AbleToScale` True. -/
theorem applyTransientLimits_stabilization (b : Behavior) (s : AutoscalerStatus)
    (now replicas recommendation : Int) :
    ((b.GetScalingRules replicas [recommendation]).WithinStabilizationWindow
        s.lastScaleTime now = true →
      ∃ t w, s.lastScaleTime = some t ∧
        (b.GetScalingRules replicas
          [recommendation]).stabilizationWindowSeconds = some w ∧
        applyTransientLimits b s now replicas recommendation =
          (replicas,
            markFalseAbleToScale s ""
              ("within stabilization window, able to scale at " ++
                toString (t + w)))) ∧
    ((b.GetScalingRules replicas [recommendation]).WithinStabilizationWindow
        s.lastScaleTime now = false →
      (b.GetScalingRules replicas [recommendation]).policies = [] →
      applyTransientLimits b s now replicas recommendation =
        (recommendation, markTrueAbleToScale s)) := by
  constructor
  · intro hw
    have key : applyTransientLimits b s now replicas recommendation =
        (replicas,
          markFalseAbleToScale s ""
            ("within stabilization window, able to scale at " ++
              toString (s.lastScaleTime.get! +
                (b.GetScalingRules replicas
                  [recommendation]).stabilizationWindowSeconds.get!))) := by
      simp only [applyTransientLimits]
      rw [if_pos hw]
    rcases hlst : s.lastScaleTime with _ | t
    · simp [ScalingRules.WithinStabilizationWindow, hlst] at hw
    rcases hwin : (b.GetScalingRules replicas
        [recommendation]).stabilizationWindowSeconds with _ | w
    · simp [ScalingRules.WithinStabilizationWindow, hlst, hwin] at hw
    rw [hlst, hwin] at key
    exact ⟨t, w, rfl, rfl, key⟩
  · intro hnw _
    simp only [applyTransientLimits]
    rw [if_neg (by rw [hnw]; exact Bool.false_ne_true)]

/-- C2 witness: last scale at 100 with a 60-second window — at time 110 the
limiter returns the current 5 replicas and marks `AbleToScale` False naming
time 160; at time 200 it passes the recommendation 8 through and marks
`AbleToScale` True. -/
theorem applyTransientLimits_stabilization_witness :
    (∃ t w, statusScaled.lastScaleTime = some t ∧
      (behaviorUp.GetScalingRules 5 [8]).stabilizationWindowSeconds = some w ∧
      applyTransientLimits behaviorUp statusScaled 110 5 8 =
        (5, markFalseAbleToScale statusScaled ""
          ("within stabilization window, able to scale at " ++
            toString (t + w)))) ∧
    applyTransientLimits behaviorUp statusScaled 200 5 8 =
      (8, markTrueAbleToScale statusScaled) :=
  ⟨(applyTransientLimits_stabilization behaviorUp statusScaled 110 5 8).1
      (by decide),
   (applyTransientLimits_stabilization behaviorUp statusScaled 200 5 8).2
      (by decide) (by decide)⟩

/-- C4: both conditions are set unconditionally — `applyTransientLimits`
always sets `AbleToScale` (to exactly one of True/False with reason/message),
`applyBoundedLimits` always sets `ScalingUnbounded`, and after
`getDesiredReplicas` (the recommendation computation of every pass) both
conditions are set in the resulting status. -/
theorem conditions_set_every_pass (b : Behavior) (spec : AutoscalerSpec)
    (s : AutoscalerStatus) (now replicas recommendation r : Int) :
    (∃ c, (applyTransientLimits b s now replicas recommendation).2.ableToScale =
      some c) ∧
    (∃ c, (applyBoundedLimits spec s r).2.scalingUnbounded = some c) ∧
    (∀ (env : Env) (metrics : List Metric) (t : Scale),
      (∃ c, (getDesiredReplicas env spec s metrics t).2.ableToScale = some c) ∧
      (∃ c, (getDesiredReplicas env spec s metrics t).2.scalingUnbounded =
        some c)) :=
  ⟨applyTransientLimits_sets_ableToScale b s now replicas recommendation,
   applyBoundedLimits_sets_scalingUnbounded spec s r,
   fun env metrics t => getDesiredReplicas_sets_conditions env spec s metrics t⟩

/-- C9: for every non-empty list of per-metric recommendations and current
replica count `c`, `ApplySelectPolicy` returns the maximum under the `Max`
policy (also the default when the policy is unspecified), the minimum under
`Min`, and `c` regardless of the recommendations under `Disabled`. -/
theorem applySelectPolicy_spec (b : Behavior) (c : Int) (rs : List Int)
    (h : rs ≠ []) :
    ((b.selectPolicy = none ∨
        b.selectPolicy = some ScalingPolicySelect.MaxPolicy) →
      b.ApplySelectPolicy c rs ∈ rs ∧ ∀ y ∈ rs, y ≤ b.ApplySelectPolicy c rs) ∧
    (b.selectPolicy = some ScalingPolicySelect.MinPolicy →
      b.ApplySelectPolicy c rs ∈ rs ∧ ∀ y ∈ rs, b.ApplySelectPolicy c rs ≤ y) ∧
    (b.selectPolicy = some ScalingPolicySelect.Disabled →
      b.ApplySelectPolicy c rs = c) := by
  refine ⟨?_, ?_, ?_⟩
  · rintro (hp | hp) <;>
      · rw [Behavior.ApplySelectPolicy, hp]
        exact MaxInt32_spec rs h
  · intro hp
    rw [Behavior.ApplySelectPolicy, hp]
    exact MinInt32_spec rs h
  · intro hp
    rw [Behavior.ApplySelectPolicy, hp]
    rfl

/-- C9 witness: recommendations `[3, 8]` with current 5 under the default
(unspecified) policy select the maximum 8; the `Min` and `Disabled` clauses
are instantiated vacuously-satisfiable at the same input. -/
theorem applySelectPolicy_spec_witness :
    ([3, 8] ≠ ([] : List Int)) ∧
    (((behaviorNone.selectPolicy = none ∨
        behaviorNone.selectPolicy = some ScalingPolicySelect.MaxPolicy) →
      behaviorNone.ApplySelectPolicy 5 [3, 8] ∈ [3, 8] ∧
        ∀ y ∈ [3, 8], y ≤ behaviorNone.ApplySelectPolicy 5 [3, 8]) ∧
    (behaviorNone.selectPolicy = some ScalingPolicySelect.MinPolicy →
      behaviorNone.ApplySelectPolicy 5 [3, 8] ∈ [3, 8] ∧
        ∀ y ∈ [3, 8], behaviorNone.ApplySelectPolicy 5 [3, 8] ≤ y) ∧
    (behaviorNone.selectPolicy = some ScalingPolicySelect.Disabled →
      behaviorNone.ApplySelectPolicy 5 [3, 8] = 5)) :=
  ⟨by decide, applySelectPolicy_spec behaviorNone 5 [3, 8] (by decide)⟩

/-- C10: whenever `WithinStabilizationWindow` returns true — the guard of the
within-window branch of `applyTransientLimits` — both `LastScaleTime` and the
configured `StabilizationWindowSeconds` are non-nil, so the branch's
dereferences (`Option.get!` in the embedding, pointer dereferences in the
source) are never of nil and the branch cannot panic. -/
theorem withinStabilizationWindow_deref_safe (rules : ScalingRules)
    (lst : Option Int) (now : Int)
    (h : rules.WithinStabilizationWindow lst now = true) :
    lst.isSome = true ∧ rules.stabilizationWindowSeconds.isSome = true := by
  rcases hl : lst with _ | t
  · simp [ScalingRules.WithinStabilizationWindow, hl] at h
  rcases hw : rules.stabilizationWindowSeconds with _ | w
  · simp [ScalingRules.WithinStabilizationWindow, hl, hw] at h
  exact ⟨rfl, rfl⟩

/-- C10 witness: a 60-second window with last scale at 100 observed at 110. -/
theorem withinStabilizationWindow_deref_safe_witness :
    rulesW60.WithinStabilizationWindow (some 100) 110 = true ∧
    ((some 100 : Option Int).isSome = true ∧
      rulesW60.stabilizationWindowSeconds.isSome = true) :=
  ⟨by decide, withinStabilizationWindow_deref_safe rulesW60 (some 100) 110
    (by decide)⟩

/-- C6 counterexample: with no stabilization window, current replicas 5 and
recommendation 100, a configured rate policy limiting the change to at most 1
pod per period does not take effect — the limiter returns the raw
recommendation 100 even though 100 exceeds the policy's bound of 5 + 1. -/
theorem rate_policy_ignored_cex :
    (behaviorPol.GetScalingRules 5 [100]).policies = [polPods1] ∧
    (applyTransientLimits behaviorPol statusEmpty 1000 5 100).1 = 100 ∧
    5 + polPods1.value < 100 := by
  refine ⟨rfl, rfl, by decide⟩

/-- C6 amended: when the stabilization window has elapsed (or none applies),
`applyTransientLimits` returns the recommendation unmodified and marks
`AbleToScale` True regardless of the configured rate policies — the policies
loop only logs a TODO and never restricts the recommendation. -/
theorem applyTransientLimits_ignores_policies (b : Behavior)
    (s : AutoscalerStatus) (now replicas recommendation : Int)
    (h : (b.GetScalingRules replicas [recommendation]).WithinStabilizationWindow
      s.lastScaleTime now = false) :
    applyTransientLimits b s now replicas recommendation =
      (recommendation, markTrueAbleToScale s) := by
  simp only [applyTransientLimits]
  rw [if_neg (by rw [h]; exact Bool.false_ne_true)]

/-- C6 amended witness: the configured 1-pod-per-period policy does not stop
the jump from 5 to 100 replicas. -/
theorem applyTransientLimits_ignores_policies_witness :
    (behaviorPol.GetScalingRules 5 [100]).WithinStabilizationWindow
      statusEmpty.lastScaleTime 1000 = false ∧
    applyTransientLimits behaviorPol statusEmpty 1000 5 100 =
      (100, markTrueAbleToScale statusEmpty) :=
  ⟨by decide, applyTransientLimits_ignores_policies behaviorPol statusEmpty
    1000 5 100 (by decide)⟩

/-- C7: when any single metric lookup fails, `getMetrics` fails (no partial
metric results are produced) and the whole `Reconcile` pass aborts with that
error, leaving the status entirely unchanged — including `CurrentReplicas` —
and issuing no update. -/
theorem reconcile_metric_error_frame (env : Env) (a : Autoscaler)
    (m : MetricSpec) (e : String)
    (hm : m ∈ a.spec.metrics) (he : env.getCurrentValue m = Except.error e) :
    (∃ e2, getMetrics env a = Except.error e2) ∧
    (Reconcile env a).status = a.status ∧
    (∃ e2, (Reconcile env a).result = Except.error e2) ∧
    (Reconcile env a).updateCalled = false ∧
    (Reconcile env a).updateArg = none := by
  obtain ⟨e2, hge⟩ := getMetricsLoop_error env a.spec.metrics [] m e hm he
  have hr := Reconcile_metric_error_eq env a e2 hge
  rw [hr]
  exact ⟨⟨e2, hge⟩, rfl, ⟨e2, rfl⟩, rfl, rfl⟩

/-- C7 witness: the single metric of `specA` fails in `envMetricFail`. -/
theorem reconcile_metric_error_frame_witness :
    (msA ∈ specA.metrics ∧
      envMetricFail.getCurrentValue msA = Except.error "metric backend down") ∧
    ((∃ e2, getMetrics envMetricFail autoA = Except.error e2) ∧
     (Reconcile envMetricFail autoA).status = autoA.status ∧
     (∃ e2, (Reconcile envMetricFail autoA).result = Except.error e2) ∧
     (Reconcile envMetricFail autoA).updateCalled = false ∧
     (Reconcile envMetricFail autoA).updateArg = none) :=
  ⟨⟨by decide, rfl⟩,
   reconcile_metric_error_frame envMetricFail autoA msA "metric backend down"
     (by decide) rfl⟩

/-- C5: when the computed desired replica count equals the fetched target's
current spec replicas, `Reconcile` issues no update call, leaves
`LastScaleTime` and `DesiredReplicas` unchanged, returns no error, and the two
conditions recorded during limiting/clamping are still set. -/
theorem reconcile_nochange_frame (env : Env) (a : Autoscaler)
    (metrics : List Metric) (t : Scale)
    (hm : getMetrics env a = Except.ok metrics)
    (ht : getScaleTarget env a = Except.ok t)
    (hd : (reconcileDesired env a metrics t).1 = t.specReplicas) :
    (Reconcile env a).updateCalled = false ∧
    (Reconcile env a).updateArg = none ∧
    (Reconcile env a).result = Except.ok () ∧
    (Reconcile env a).status.lastScaleTime = a.status.lastScaleTime ∧
    (Reconcile env a).status.desiredReplicas = a.status.desiredReplicas ∧
    (∃ c, (Reconcile env a).status.ableToScale = some c) ∧
    (∃ c, (Reconcile env a).status.scalingUnbounded = some c) := by
  rw [Reconcile_nochange_eq env a metrics t hm ht hd]
  obtain ⟨f1, f2, f3⟩ := getDesiredReplicas_frame env a.spec
    { a.status with currentReplicas := some t.statusReplicas } metrics t
  obtain ⟨c1, c2⟩ := getDesiredReplicas_sets_conditions env a.spec
    { a.status with currentReplicas := some t.statusReplicas } metrics t
  exact ⟨rfl, rfl, rfl, f3, f2, c1, c2⟩

/-- C5 witness: scenario A — recommendation 8 from current 5, inside the
stabilization window, so the limiter holds at 5 which equals the target's spec
replicas; the pass is a no-op with both conditions set. -/
theorem reconcile_nochange_frame_witness :
    (getMetrics envStab autoB = Except.ok metricsA ∧
     getScaleTarget envStab autoB = Except.ok scaleA ∧
     (reconcileDesired envStab autoB metricsA scaleA).1 = scaleA.specReplicas) ∧
    ((Reconcile envStab autoB).updateCalled = false ∧
     (Reconcile envStab autoB).updateArg = none ∧
     (Reconcile envStab autoB).result = Except.ok () ∧
     (Reconcile envStab autoB).status.lastScaleTime = autoB.status.lastScaleTime ∧
     (Reconcile envStab autoB).status.desiredReplicas = autoB.status.desiredReplicas ∧
     (∃ c, (Reconcile envStab autoB).status.ableToScale = some c) ∧
     (∃ c, (Reconcile envStab autoB).status.scalingUnbounded = some c)) :=
  ⟨⟨rfl, rfl, rfl⟩,
   reconcile_nochange_frame envStab autoB metricsA scaleA rfl rfl rfl⟩

/-- C8: when the computed desired replica count differs from the target's
spec replicas, `Reconcile` calls the gateway update with the local target
carrying the desired count; on update failure the pass returns that error with
`DesiredReplicas` and `LastScaleTime` untouched, and on update success
`DesiredReplicas` is set to the new count and `LastScaleTime` to the current
time. -/
theorem reconcile_update_path (env : Env) (a : Autoscaler)
    (metrics : List Metric) (t : Scale)
    (hm : getMetrics env a = Except.ok metrics)
    (ht : getScaleTarget env a = Except.ok t)
    (hne : (reconcileDesired env a metrics t).1 ≠ t.specReplicas) :
    (Reconcile env a).updateCalled = true ∧
    (Reconcile env a).updateArg =
      some { t with specReplicas := (reconcileDesired env a metrics t).1 } ∧
    (∀ e, updateScaleTarget env a
        { t with specReplicas := (reconcileDesired env a metrics t).1 } =
          Except.error e →
      (Reconcile env a).result = Except.error e ∧
      (Reconcile env a).status.desiredReplicas = a.status.desiredReplicas ∧
      (Reconcile env a).status.lastScaleTime = a.status.lastScaleTime) ∧
    (updateScaleTarget env a
        { t with specReplicas := (reconcileDesired env a metrics t).1 } =
          Except.ok () →
      (Reconcile env a).result = Except.ok () ∧
      (Reconcile env a).status.desiredReplicas =
        some (reconcileDesired env a metrics t).1 ∧
      (Reconcile env a).status.lastScaleTime = some env.now) := by
  obtain ⟨f1, f2, f3⟩ := getDesiredReplicas_frame env a.spec
    { a.status with currentReplicas := some t.statusReplicas } metrics t
  rcases hu : updateScaleTarget env a
      { t with specReplicas := (reconcileDesired env a metrics t).1 } with e | u
  · rw [Reconcile_update_error_eq env a metrics t e hm ht hne hu]
    refine ⟨rfl, rfl, ?_, ?_⟩
    · intro e2 he2
      cases he2
      exact ⟨rfl, f2, f3⟩
    · intro hok
      exact absurd hok (by simp)
  · cases u
    rw [Reconcile_update_ok_eq env a metrics t hm ht hne hu]
    refine ⟨rfl, rfl, ?_, ?_⟩
    · intro e2 he2
      exact absurd he2 (by simp)
    · intro _
      exact ⟨rfl, rfl, rfl⟩

/-- C8 witness: scenario B — recommendation 8 from current 5 with no window,
so 8 ≠ 5; in `envOk` the update succeeds and status advances to
`DesiredReplicas = 8`, `LastScaleTime = 1000`. -/
theorem reconcile_update_path_witness :
    (getMetrics envOk autoA = Except.ok metricsA ∧
     getScaleTarget envOk autoA = Except.ok scaleA ∧
     (reconcileDesired envOk autoA metricsA scaleA).1 ≠ scaleA.specReplicas) ∧
    ((Reconcile envOk autoA).updateCalled = true ∧
     (Reconcile envOk autoA).updateArg =
       some { scaleA with
              specReplicas := (reconcileDesired envOk autoA metricsA scaleA).1 } ∧
     (∀ e, updateScaleTarget envOk autoA
         { scaleA with
           specReplicas := (reconcileDesired envOk autoA metricsA scaleA).1 } =
           Except.error e →
       (Reconcile envOk autoA).result = Except.error e ∧
       (Reconcile envOk autoA).status.desiredReplicas =
         autoA.status.desiredReplicas ∧
       (Reconcile envOk autoA).status.lastScaleTime =
         autoA.status.lastScaleTime) ∧
     (updateScaleTarget envOk autoA
         { scaleA with
           specReplicas := (reconcileDesired envOk autoA metricsA scaleA).1 } =
           Except.ok () →
       (Reconcile envOk autoA).result = Except.ok () ∧
       (Reconcile envOk autoA).status.desiredReplicas =
         some (reconcileDesired envOk autoA metricsA scaleA).1 ∧
       (Reconcile envOk autoA).status.lastScaleTime = some envOk.now)) :=
  ⟨⟨rfl, rfl, by decide⟩,
   reconcile_update_path envOk autoA metricsA scaleA rfl rfl (by decide)⟩

/-- C3 counterexample: in `envUpdateFail` the pass fails at the update stage,
yet the status is not "exactly as before except CurrentReplicas": the
`AbleToScale` condition was rewritten (from unset to True) while computing the
recommendation before the failed update. -/
theorem reconcile_error_status_change_cex :
    (∃ e, (Reconcile envUpdateFail autoA).result = Except.error e) ∧
    (Reconcile envUpdateFail autoA).status.ableToScale ≠
      autoA.status.ableToScale := by
  refine ⟨⟨"updating /apis/apps/v1/web, conflict", rfl⟩, ?_⟩
  have h1 : (Reconcile envUpdateFail autoA).status.ableToScale =
      some { status := true, reason := "", message := "" } := rfl
  have h2 : autoA.status.ableToScale = none := rfl
  rw [h1, h2]
  exact fun hcontra => Option.noConfusion hcontra

/-- C3 amended: every error-returning pass of `Reconcile` leaves
`DesiredReplicas` and `LastScaleTime` unchanged; metric and target
resolution/fetch failures leave the status entirely unchanged; an update-stage
failure may additionally refresh `CurrentReplicas` from the fetched target
(and rewrite the two conditions recorded while computing the
recommendation). -/
theorem reconcile_error_frame (env : Env) (a : Autoscaler)
    (h : ∃ e, (Reconcile env a).result = Except.error e) :
    (Reconcile env a).status.desiredReplicas = a.status.desiredReplicas ∧
    (Reconcile env a).status.lastScaleTime = a.status.lastScaleTime ∧
    ((∃ e, getMetrics env a = Except.error e) ∨
        (∃ e, getScaleTarget env a = Except.error e) →
      (Reconcile env a).status = a.status) ∧
    ((Reconcile env a).status.currentReplicas = a.status.currentReplicas ∨
      ∃ t, getScaleTarget env a = Except.ok t ∧
        (Reconcile env a).status.currentReplicas = some t.statusReplicas) := by
  rcases hm : getMetrics env a with em | metrics
  · rw [Reconcile_metric_error_eq env a em hm]
    exact ⟨rfl, rfl, fun _ => rfl, Or.inl rfl⟩
  rcases ht : getScaleTarget env a with et | t
  · rw [Reconcile_target_error_eq env a metrics et hm ht]
    exact ⟨rfl, rfl, fun _ => rfl, Or.inl rfl⟩
  obtain ⟨f1, f2, f3⟩ := getDesiredReplicas_frame env a.spec
    { a.status with currentReplicas := some t.statusReplicas } metrics t
  by_cases hd : (reconcileDesired env a metrics t).1 = t.specReplicas
  · rw [Reconcile_nochange_eq env a metrics t hm ht hd] at h
    obtain ⟨e, he⟩ := h
    exact absurd he (by simp)
  rcases hu : updateScaleTarget env a
      { t with specReplicas := (reconcileDesired env a metrics t).1 } with e | u
  · rw [Reconcile_update_error_eq env a metrics t e hm ht hd hu]
    refine ⟨f2, f3, ?_, Or.inr ⟨t, rfl, f1⟩⟩
    rintro (⟨e2, hh⟩ | ⟨e2, hh⟩)
    · exact absurd hh (by simp)
    · exact absurd hh (by simp)
  · cases u
    rw [Reconcile_update_ok_eq env a metrics t hm ht hd hu] at h
    obtain ⟨e, he⟩ := h
    exact absurd he (by simp)

/-- C3 amended witness: the failed-update pass in `envUpdateFail` keeps
`DesiredReplicas`/`LastScaleTime`, and its `CurrentReplicas` was refreshed
from the fetched target. -/
theorem reconcile_error_frame_witness :
    (∃ e, (Reconcile envUpdateFail autoA).result = Except.error e) ∧
    ((Reconcile envUpdateFail autoA).status.desiredReplicas =
        autoA.status.desiredReplicas ∧
     (Reconcile envUpdateFail autoA).status.lastScaleTime =
        autoA.status.lastScaleTime ∧
     ((∃ e, getMetrics envUpdateFail autoA = Except.error e) ∨
         (∃ e, getScaleTarget envUpdateFail autoA = Except.error e) →
       (Reconcile envUpdateFail autoA).status = autoA.status) ∧
     ((Reconcile envUpdateFail autoA).status.currentReplicas =
         autoA.status.currentReplicas ∨
       ∃ t, getScaleTarget envUpdateFail autoA = Except.ok t ∧
         (Reconcile envUpdateFail autoA).status.currentReplicas =
           some t.statusReplicas)) :=
  ⟨⟨"updating /apis/apps/v1/web, conflict", rfl⟩,
   reconcile_error_frame envUpdateFail autoA
     ⟨"updating /apis/apps/v1/web, conflict", rfl⟩⟩
